import Mathlib

/-!
Verification of the QuantCoach conversation-context and turn-management
engine (src/app.py) against its specification.

The Python source is shallowly embedded: chat turns are a `Turn` structure,
the Streamlit session transcript is a `List Turn` passed explicitly, the
external Groq completion call is a parameter `GatewayFn` mapping the request
message list to either a reply or a raised-exception detail, and each UI
action handler of `main()` becomes a function from the old transcript to the
new one.  Python string trailing-edge operations (`endswith`, `rstrip`) are
modelled over the character list of the string.
-/

namespace QuantCoach

/-- Chat roles used by app.py: the literal role strings "system", "user",
"assistant" of the message dicts. -/
inductive Role where
  | system
  | user
  | assistant
deriving DecidableEq, Repr

/-- One message dict `{"role": ..., "content": ...}` of the session transcript
or of a request to the completion service. -/
structure Turn where
  role : Role
  content : String
deriving DecidableEq, Repr

/-- One entry of a path's "topics" list in learning_paths.json: `{name: ...}`. -/
structure Topic where
  name : String
deriving DecidableEq, Repr

/-- One entry of "learning_paths" in learning_paths.json:
`{name: ..., topics: [...]}`. -/
structure Path where
  name : String
  topics : List Topic
deriving DecidableEq, Repr

/-- The parsed learning_paths.json document:
`{learning_paths: [...]}` (src/app.py line 92 / lines 175-177). -/
structure Catalog where
  learning_paths : List Path
deriving DecidableEq, Repr

/-- Python `s.endswith(suffix)`: `suffix` is a suffix of `s`, decided over the
character lists. -/
def endswith (s suffix : String) : Bool :=
  decide (suffix.data <:+ s.data)

/-- Python `s.rstrip()`: remove trailing whitespace characters. -/
def rstrip (s : String) : String :=
  String.mk ((s.data.reverse.dropWhile Char.isWhitespace).reverse)

/-- The terminal punctuation list `['.', '!', '?', ':', ';']` of
src/app.py line 348. -/
def terminal_puncts : List Char := ['.', '!', '?', ':', ';']

/-- The incompleteness heuristic of src/app.py lines 343-349: the message
content ends with "...", or ends with a double quote (the source's
"unclosed quote" check), or ends with an opening parenthesis, or fails to end
with terminal punctuation once trailing whitespace is stripped. -/
def is_incomplete (content : String) : Bool :=
  endswith content "..." ||
  endswith content "\"" ||
  endswith content "(" ||
  !(terminal_puncts.any fun punct => endswith (rstrip content) (String.singleton punct))

/-- The spec's reading of "ends with an unclosed quotation mark" (section 4.6):
the text ends with a double quote and the double quotes of the text do not
pair up (odd count), so the final quote is unclosed. -/
def ends_with_unclosed_quote (text : String) : Bool :=
  endswith text "\"" && (text.data.count '"' % 2 == 1)

/-- The spec's "ends with an unclosed opening parenthesis": a trailing opening
parenthesis is never closed, so this is exactly a trailing '('. -/
def ends_with_unclosed_paren (text : String) : Bool :=
  endswith text "("

/-- The spec's "ends with any terminal punctuation from the set
`{'.', '!', '?', ':', ';'}` after trimming trailing whitespace". -/
def ends_with_terminal_punct (text : String) : Bool :=
  terminal_puncts.any fun punct => endswith (rstrip text) (String.singleton punct)

/-- The transition rule of spec section 4.6, assembled from the spec's own
wording: incomplete if the text ends with "...", or ends with an unclosed
quotation mark, or ends with an unclosed opening parenthesis, or fails to end
with terminal punctuation after trimming trailing whitespace. -/
def isIncomplete_spec (text : String) : Bool :=
  endswith text "..." ||
  ends_with_unclosed_quote text ||
  ends_with_unclosed_paren text ||
  !(ends_with_terminal_punct text)

/-- History Window (spec 4.3): the source computes
`chat_history[-4:] if len(chat_history) > 4 else chat_history`
(src/app.py lines 144-147); here the bound 4 is the `maxTurns` parameter. -/
def windowed (transcript : List Turn) (maxTurns : Nat) : List Turn :=
  if transcript.length > maxTurns then transcript.drop (transcript.length - maxTurns)
  else transcript

/-- The context annotation block of get_ai_response (src/app.py lines 99-105):
three conditionally appended lines.  Python's `if selected_path` truthiness is
the `≠ ""` conjunct. -/
def build_context_info (context selected_path selected_topic : String) : String :=
  (if context ≠ "" then "Current learning context: " ++ context ++ "\n" else "") ++
  (if selected_path ≠ "" ∧ selected_path ≠ "Select a path..." then
    "User has selected learning path: " ++ selected_path ++ "\n" else "") ++
  (if selected_topic ≠ "" ∧ selected_topic ≠ "Select a topic..." then
    "User is focusing on topic: " ++ selected_topic ++ "\n" else "")

/-- The same annotation block as the list of the lines actually appended, one
entry per executed `context_info +=` of src/app.py lines 99-105. -/
def context_lines (context selected_path selected_topic : String) : List String :=
  (if context ≠ "" then ["Current learning context: " ++ context ++ "\n"] else []) ++
  (if selected_path ≠ "" ∧ selected_path ≠ "Select a path..." then
    ["User has selected learning path: " ++ selected_path ++ "\n"] else []) ++
  (if selected_topic ≠ "" ∧ selected_topic ≠ "Select a topic..." then
    ["User is focusing on topic: " ++ selected_topic ++ "\n"] else [])

/-- The continuation instruction block (src/app.py lines 107-109). -/
def continuation_text (is_continuation : Bool) : String :=
  if is_continuation then
    "IMPORTANT: You are continuing from an incomplete sentence. Complete the exact sentence that was cut off, then continue with 1-2 more complete sentences."
  else ""

/-- The fixed persona part of the system prompt before the spliced
`{context_info}` (src/app.py lines 111-133 of the f-string). -/
def prompt_persona : String :=
  "You are QuantCoach, an AI educational assistant specializing in quantitative trading and finance education.\n\n" ++
  "Your role is to help users LEARN ABOUT quantitative trading concepts, NOT to provide trading advice or perform analysis.\n\n" ++
  "You can help users with:\n" ++
  "- Understanding quantitative trading concepts and terminology\n" ++
  "- Explaining statistical and mathematical concepts used in trading\n" ++
  "- Teaching about machine learning applications in finance\n" ++
  "- Educational content about market structures and derivatives\n" ++
  "- Probability and statistics for trading\n" ++
  "- Explaining backtesting and strategy development concepts\n\n" ++
  "You CANNOT and DO NOT:\n" ++
  "- Provide actual trading recommendations or investment advice\n" ++
  "- Perform market analysis or predict market movements\n" ++
  "- Give specific stock picks or trading signals\n" ++
  "- Access real market data or execute trades\n\n" ++
  "IMPORTANT DISCLAIMERS:\n" ++
  "- All content is for educational purposes only\n" ++
  "- NO financial advice or trading recommendations\n" ++
  "- Users must consult qualified financial advisors for investment decisions\n" ++
  "- Trading involves substantial risk and past performance doesn't guarantee future results\n\n"

/-- The fixed tail of the system prompt after the spliced
`{continuation_text}` (src/app.py line 139 of the f-string). -/
def prompt_tail : String :=
  "Keep responses CONSISTENT and moderately sized - aim for exactly 2-3 complete sentences. CRITICALLY IMPORTANT: If you have more to say, you MUST end your response with \"...\" to indicate continuation is available. Always finish complete sentences - never cut off mid-sentence. Be conversational and informative."

/-- The full system prompt f-string of src/app.py lines 111-139. -/
def system_prompt (context selected_path selected_topic : String) (is_continuation : Bool) : String :=
  prompt_persona ++ build_context_info context selected_path selected_topic ++ "\n\n" ++
  continuation_text is_continuation ++ "\n\n" ++ prompt_tail

/-- The external completion service boundary: given the request message list it
either answers with the reply text (`Except.ok`) or raises, with the
exception's string rendering (`Except.error`).  The service is a black box:
any such function is an admissible behaviour. -/
def GatewayFn : Type := List Turn → Except String String

/-- What get_ai_response makes of the service outcome (src/app.py
lines 159-161): the reply's content on success, the sentinel error string on
any exception. -/
def gateway_text (result : Except String String) : String :=
  match result with
  | Except.ok content => content
  | Except.error e => "Error: Unable to get AI response. " ++ e

/-- The request message list get_ai_response builds (src/app.py lines
141-150): the system prompt, then the last-4 window of chat_history, then the
live user message. -/
def build_messages (message context selected_path selected_topic : String)
    (chat_history : List Turn) (is_continuation : Bool) : List Turn :=
  Turn.mk Role.system (system_prompt context selected_path selected_topic is_continuation) ::
    (windowed chat_history 4 ++ [Turn.mk Role.user message])

/-- get_ai_response (src/app.py lines 94-161): build the request, call the
service, and turn any failure into the sentinel string. -/
def get_ai_response (svc : GatewayFn) (message context selected_path selected_topic : String)
    (chat_history : List Turn) (is_continuation : Bool) : String :=
  gateway_text (svc (build_messages message context selected_path selected_topic chat_history is_continuation))

/-- The `context` computed before an ask or continuation call (src/app.py
lines 398-406 and 360-368): the first catalog path whose name matches the
selection, rendered with its comma-joined topic names; "" when the placeholder
is selected or no path matches. -/
def build_path_context (lp : Catalog) (selected_path : String) : String :=
  if selected_path ≠ "Select a path..." then
    match lp.learning_paths.find? (fun path => path.name == selected_path) with
    | some path =>
        "Learning path: " ++ selected_path ++ ". Available topics: " ++
          String.intercalate ", " (path.topics.map Topic.name)
    | none => ""
  else ""

/-- The request that the ask turn-cycle sends: the chat input handler appends
the user Turn to the session messages first (src/app.py line 396) and then
passes those messages as chat_history (line 412), so the window is taken over
the transcript that already contains the new user Turn. -/
def ask_request (lp : Catalog) (selected_path : String) (transcript : List Turn)
    (prompt : String) : List Turn :=
  build_messages prompt (build_path_context lp selected_path) selected_path ""
    (transcript ++ [Turn.mk Role.user prompt]) false

/-- The chat-input handler (src/app.py lines 393-421): on a non-empty prompt,
append the user Turn, call get_ai_response with the updated messages as
history, and append the reply as an assistant Turn.  `st.chat_input` yielding
no text (None or "") is the `prompt = ""` branch: no mutation. -/
def ask_handler (svc : GatewayFn) (lp : Catalog) (selected_path : String)
    (transcript : List Turn) (prompt : String) : List Turn :=
  if prompt = "" then transcript
  else
    let t1 := transcript ++ [Turn.mk Role.user prompt]
    let response := get_ai_response svc prompt (build_path_context lp selected_path)
      selected_path "" t1 false
    t1 ++ [Turn.mk Role.assistant response]

/-- The shared shape of the sidebar turn-cycles (auto-explain at src/app.py
lines 210-227, learn-more at 240-259, the two quiz buttons at 268-314): append
the generated user question, call get_ai_response with the updated messages as
history and the selected path/topic, append the reply. -/
def action_cycle (svc : GatewayFn) (selected_path selected_topic : String)
    (transcript : List Turn) (question context : String) : List Turn :=
  let t1 := transcript ++ [Turn.mk Role.user question]
  let response := get_ai_response svc question context selected_path selected_topic t1 false
  t1 ++ [Turn.mk Role.assistant response]

/-- Failure of the continuation resolver on an ineligible transcript.
Modelled from the spec (section 4.6): the source renders no Continue button
outside the eligible case (src/app.py lines 351-353), so the operation cannot
be invoked there; the spec names that refusal `PreconditionViolation`. -/
inductive ContinuationError where
  | preconditionViolation
deriving DecidableEq, Repr

/-- The Continue-button handler (src/app.py lines 342-390).  The button exists
only for the last message, when its role is "assistant" and the
incompleteness heuristic fires (lines 351-353); in that case the handler wraps
the incomplete content in the continuation prompt (lines 371-373), calls
get_ai_response with the whole transcript as history and is_continuation=True
(lines 377-384), and appends the reply as a new assistant Turn (lines
387-389).  The ineligible case is the spec's `PreconditionViolation` failure,
with the transcript left untouched. -/
def resolveContinuation (svc : GatewayFn) (lp : Catalog) (selected_path : String)
    (transcript : List Turn) : Except ContinuationError (List Turn) :=
  match transcript.getLast? with
  | none => Except.error ContinuationError.preconditionViolation
  | some last =>
    if last.role = Role.assistant ∧ is_incomplete last.content = true then
      let continuation_prompt :=
        "Please complete this incomplete sentence and continue: \"" ++ last.content ++ "\""
      let continuation := get_ai_response svc continuation_prompt
        (build_path_context lp selected_path) selected_path "" transcript true
      Except.ok (transcript ++ [Turn.mk Role.assistant continuation])
    else Except.error ContinuationError.preconditionViolation

/-- Whether the sidebar Topic Explorer is rendered (src/app.py lines 187-197):
a non-placeholder path is selected and the catalog contains it. -/
def topic_explorer_open (lp : Catalog) (selected_path : String) : Bool :=
  selected_path != "Select a path..." &&
    (lp.learning_paths.find? (fun path => path.name == selected_path)).isSome

/-- The user-facing actions of one rerun of main() (spec section 6). -/
inductive Action where
  | ask (prompt : String)
  | autoExplain
  | learnMore
  | quizMC
  | quizSA
  | continueLast
  | clearChat
deriving DecidableEq

/-- One user-triggered action of main() as a transcript transform.  Guards
mirror where the source renders the triggering widget: the sidebar cycles
need the Topic Explorer open and a non-placeholder topic (src/app.py lines
187-208, 236), auto-explain additionally a topic different from the previous
one (lines 207-208), Continue needs the eligible last turn (lines 351-353),
and Clear Chat resets the messages to [] (lines 321-323).  The
`previous_topic` update of line 230 is selection state, not transcript state,
and is not modelled here. -/
def step (svc : GatewayFn) (lp : Catalog) (selected_path selected_topic previous_topic : String)
    (transcript : List Turn) (a : Action) : List Turn :=
  match a with
  | Action.ask prompt => ask_handler svc lp selected_path transcript prompt
  | Action.autoExplain =>
    if topic_explorer_open lp selected_path && selected_topic != "Select a topic..." &&
        selected_topic != previous_topic then
      action_cycle svc selected_path selected_topic transcript
        ("Please briefly explain " ++ selected_topic ++ " in the context of " ++ selected_path ++ ".")
        ("Learning path: " ++ selected_path ++ ", Specific topic: " ++ selected_topic)
    else transcript
  | Action.learnMore =>
    if topic_explorer_open lp selected_path && selected_topic != "Select a topic..." then
      action_cycle svc selected_path selected_topic transcript
        ("Can you teach me more advanced concepts about " ++ selected_topic ++
          "? Give me deeper insights and practical applications.")
        ("Learning path: " ++ selected_path ++ ", Advanced topic: " ++ selected_topic)
    else transcript
  | Action.quizMC =>
    if topic_explorer_open lp selected_path && selected_topic != "Select a topic..." then
      action_cycle svc selected_path selected_topic transcript
        ("Give me a multiple choice quiz question about " ++ selected_topic ++
          " in the context of " ++ selected_path ++
          ". Provide one question with 4 options (A, B, C, D) and indicate the correct answer.")
        ("Learning path: " ++ selected_path ++ ", Quiz topic: " ++ selected_topic)
    else transcript
  | Action.quizSA =>
    if topic_explorer_open lp selected_path && selected_topic != "Select a topic..." then
      action_cycle svc selected_path selected_topic transcript
        ("Give me a short answer quiz question about " ++ selected_topic ++
          " in the context of " ++ selected_path ++
          ". Ask one thought-provoking question that requires a brief explanation.")
        ("Learning path: " ++ selected_path ++ ", Quiz topic: " ++ selected_topic)
    else transcript
  | Action.continueLast =>
    match resolveContinuation svc lp selected_path transcript with
    | Except.ok t2 => t2
    | Except.error _ => transcript
  | Action.clearChat => []

/-- How loading the catalog can fail (src/app.py lines 89-92): `open` raises
when learning_paths.json is missing, `json.load` raises on malformed content. -/
inductive LoadError where
  | fileNotFound
  | jsonDecodeError
deriving DecidableEq, Repr

/-- load_learning_paths (src/app.py lines 89-92).  The backing source is
modelled as: `none` = the file is missing, `some none` = the file exists but
its content is malformed, `some (some catalog)` = well-formed content.  The
source wraps nothing in a try/except, so both failure modes propagate as
raised errors; there is no fallback branch. -/
def load_learning_paths (source : Option (Option Catalog)) : Except LoadError Catalog :=
  match source with
  | none => Except.error LoadError.fileNotFound
  | some none => Except.error LoadError.jsonDecodeError
  | some (some catalog) => Except.ok catalog

/-- A concrete catalog for witnesses, taken from the spec's section 8
end-to-end scenario. -/
def sampleCatalog : Catalog :=
  Catalog.mk [Path.mk "Probability & Statistics" [Topic.mk "Events and probabilities"]]

/-! ## Helper lemmas -/

lemma endswith_iff (s t : String) : endswith s t = true ↔ t.data <:+ s.data := by
  simp [endswith]

lemma singleton_suffix_append {α : Type} (l : List α) (a b : α) :
    [b] <:+ l ++ [a] ↔ b = a := by
  constructor
  · rintro ⟨u, hu⟩
    have h2 := (List.append_inj' hu (by simp)).2
    simpa using h2
  · rintro rfl
    exact ⟨l, rfl⟩

lemma rstrip_eq_self_of_trailing (text : String) (u : List Char) (c : Char)
    (hd : text.data = u ++ [c]) (hc : c.isWhitespace = false) :
    rstrip text = text := by
  unfold rstrip
  rw [hd, List.reverse_append]
  simp only [List.reverse_cons, List.reverse_nil, List.nil_append, List.singleton_append]
  rw [List.dropWhile_cons]
  simp only [hc, Bool.false_eq_true, if_false, List.reverse_cons, List.reverse_reverse]
  rw [← hd]

lemma ends_with_terminal_punct_of_trailing_quote (text : String)
    (h : endswith text "\"" = true) : ends_with_terminal_punct text = false := by
  obtain ⟨u, hu⟩ : ∃ u, u ++ ['"'] = text.data := (endswith_iff text "\"").mp h
  have hr : rstrip text = text :=
    rstrip_eq_self_of_trailing text u '"' hu.symm (by decide)
  unfold ends_with_terminal_punct
  rw [hr]
  have key : ∀ p : Char, endswith text (String.singleton p) = decide (p = '"') := by
    intro p
    unfold endswith
    rw [show (String.singleton p).data = [p] from rfl, ← hu]
    exact decide_eq_decide.mpr (singleton_suffix_append u '"' p)
  simp only [terminal_puncts, List.any_cons, List.any_nil, key]
  decide

lemma is_incomplete_eq_spec (text : String) : is_incomplete text = isIncomplete_spec text := by
  unfold is_incomplete isIncomplete_spec ends_with_unclosed_quote ends_with_unclosed_paren
    ends_with_terminal_punct
  cases hq : endswith text "\"" with
  | false => simp [hq]
  | true =>
    have ht := ends_with_terminal_punct_of_trailing_quote text hq
    unfold ends_with_terminal_punct at ht
    simp [hq, ht]

lemma windowed_suffix (t : List Turn) (n : Nat) : windowed t n <:+ t := by
  unfold windowed
  split
  · exact List.drop_suffix _ _
  · exact List.suffix_refl t

lemma windowed_all_of_le (t : List Turn) (n : Nat) (h : t.length ≤ n) :
    windowed t n = t := by
  unfold windowed
  rw [if_neg (by omega)]

lemma windowed_length (t : List Turn) (n : Nat) :
    (windowed t n).length ≤ min t.length n := by
  unfold windowed
  split
  · next h => simp; omega
  · next h => simp at h; omega

lemma mem_windowed_append_last (l : List Turn) (x : Turn) (n : Nat) (hn : 0 < n) :
    x ∈ windowed (l ++ [x]) n := by
  unfold windowed
  split
  · next h =>
    have hd : (l ++ [x]).length - n ≤ l.length := by simp; omega
    rw [List.drop_append_of_le_length hd]
    exact List.mem_append_right _ (by simp)
  · next h => exact List.mem_append_right _ (by simp)

lemma string_append_ne (a b : String) (n : Nat) (ha : n ≤ a.data.length)
    (hb : n ≤ b.data.length) (hne : a.data.take n ≠ b.data.take n) :
    ∀ x y : String, a ++ x ≠ b ++ y := by
  intro x y h
  apply hne
  have hd : a.data ++ x.data = b.data ++ y.data := by
    have h2 := congrArg String.data h
    simpa using h2
  calc a.data.take n = (a.data ++ x.data).take n := (List.take_append_of_le_length ha).symm
    _ = (b.data ++ y.data).take n := by rw [hd]
    _ = b.data.take n := List.take_append_of_le_length hb

lemma str_append_ne_empty (a b : String) (ha : a ≠ "") : a ++ b ≠ "" := by
  intro h
  apply ha
  apply String.ext
  have hd := congrArg String.data h
  rw [String.data_append] at hd
  exact (List.append_eq_nil.mp hd).1

lemma gateway_text_ne_empty (svc : GatewayFn)
    (hsvc : ∀ req c, svc req = Except.ok c → c ≠ "") (req : List Turn) :
    gateway_text (svc req) ≠ "" := by
  cases hr : svc req with
  | ok c => exact hsvc req c hr
  | error e => exact str_append_ne_empty "Error: Unable to get AI response. " e (by decide)

lemma build_context_info_eq_join (c sp tp : String) :
    build_context_info c sp tp = String.join (context_lines c sp tp) := by
  apply String.ext
  by_cases h1 : c ≠ "" <;> by_cases h2 : sp ≠ "" ∧ sp ≠ "Select a path..." <;>
    by_cases h3 : tp ≠ "" ∧ tp ≠ "Select a topic..." <;>
    simp [build_context_info, context_lines, h1, h2, h3]

lemma mem_context_lines {l : String} {c sp tp : String}
    (h : l ∈ context_lines c sp tp) :
    l = "Current learning context: " ++ c ++ "\n" ∨
    ((sp ≠ "" ∧ sp ≠ "Select a path...") ∧ l = "User has selected learning path: " ++ sp ++ "\n") ∨
    ((tp ≠ "" ∧ tp ≠ "Select a topic...") ∧ l = "User is focusing on topic: " ++ tp ++ "\n") := by
  unfold context_lines at h
  rcases List.mem_append.mp h with h12 | h3
  · rcases List.mem_append.mp h12 with h1 | h2
    · left
      by_cases hc : c ≠ ""
      · rw [if_pos hc] at h1; simpa using h1
      · rw [if_neg hc] at h1; simp at h1
    · right; left
      by_cases hsp : sp ≠ "" ∧ sp ≠ "Select a path..."
      · rw [if_pos hsp] at h2
        exact ⟨hsp, by simpa using h2⟩
      · rw [if_neg hsp] at h2; simp at h2
  · right; right
    by_cases htp : tp ≠ "" ∧ tp ≠ "Select a topic..."
    · rw [if_pos htp] at h3
      exact ⟨htp, by simpa using h3⟩
    · rw [if_neg htp] at h3; simp at h3

lemma ask_handler_eq (svc : GatewayFn) (lp : Catalog) (sp : String) (t : List Turn)
    (prompt : String) :
    ask_handler svc lp sp t prompt =
      if prompt = "" then t
      else action_cycle svc sp "" t prompt (build_path_context lp sp) := rfl

lemma resolveContinuation_ok {svc : GatewayFn} {lp : Catalog} {sp : String}
    {t t2 : List Turn} (h : resolveContinuation svc lp sp t = Except.ok t2) :
    ∃ q, t2 = t ++ [Turn.mk Role.assistant
      (get_ai_response svc q (build_path_context lp sp) sp "" t true)] := by
  revert h
  unfold resolveContinuation
  split
  · intro h; exact absurd h (by simp)
  · split
    · intro h
      injection h with h2
      exact ⟨_, h2.symm⟩
    · intro h; exact absurd h (by simp)

lemma action_cycle_nonempty (svc : GatewayFn) (sp tp : String) (t : List Turn)
    (q ctx : String) (ht : ∀ turn ∈ t, turn.content ≠ "") (hq : q ≠ "")
    (hsvc : ∀ req c, svc req = Except.ok c → c ≠ "") :
    ∀ turn ∈ action_cycle svc sp tp t q ctx, turn.content ≠ "" := by
  intro turn hmem
  simp only [action_cycle] at hmem
  rcases List.mem_append.mp hmem with h1 | h2
  · rcases List.mem_append.mp h1 with h0 | hu
    · exact ht turn h0
    · have he : turn = Turn.mk Role.user q := by simpa using hu
      rw [he]; exact hq
  · have he : turn = Turn.mk Role.assistant
        (get_ai_response svc q ctx sp tp (t ++ [Turn.mk Role.user q]) false) := by
      simpa using h2
    rw [he]
    exact gateway_text_ne_empty svc hsvc _

/-! ## Theorems -/

/-- C2: for every string `text`, `is_incomplete text` is true iff `text` ends
with "...", or ends with an unclosed quotation mark, or ends with an unclosed
opening parenthesis, or fails to end with any character of
`{'.', '!', '?', ':', ';'}` after trimming trailing whitespace; together with
the spec's five concrete examples. -/
theorem C2_isIncomplete_rule :
    (∀ text : String, is_incomplete text = isIncomplete_spec text) ∧
    is_incomplete "Explain variance..." = true ∧
    is_incomplete "Variance measures spread." = false ∧
    is_incomplete "He said \"hello" = true ∧
    is_incomplete "See the formula (" = true ∧
    is_incomplete "Risk is subjective" = true :=
  ⟨is_incomplete_eq_spec, by decide, by decide, by decide, by decide, by decide⟩

/-- C7: for every transcript `t` and bound `n`, `windowed t n` has length at
most `min t.length n`, is a suffix of `t` (original order preserved; the
embedding being purely functional, `t` itself is untouched), and equals all of
`t` whenever `t` has at most `n` turns. -/
theorem C7_windowed_suffix_bound : ∀ (t : List Turn) (n : Nat),
    (windowed t n).length ≤ min t.length n ∧ windowed t n <:+ t ∧
    (t.length ≤ n → windowed t n = t) :=
  fun t n => ⟨windowed_length t n, windowed_suffix t n, windowed_all_of_le t n⟩

/-- C1 counterexample: in the ask turn-cycle the user Turn is appended to the
session messages before they are passed as history, so the request holds the
new user message twice — once inside the history window and once as the live
turn.  A gateway that counts the occurrences of the live user turn in the
request it receives observes the count 2 (under the claim it would be 1). -/
theorem C1_counterexample :
    (ask_request sampleCatalog "Select a path..." [] "hi").countP
        (fun m => m == Turn.mk Role.user "hi") = 2 ∧
    ask_handler (fun req => Except.ok (toString (req.countP (fun m => m == Turn.mk Role.user "hi"))))
        sampleCatalog "Select a path..." [] "hi"
      = [Turn.mk Role.user "hi", Turn.mk Role.assistant "2"] :=
  ⟨rfl, rfl⟩

/-- C1 amended: the history passed to the Completion Gateway is the last-4
window of the transcript *after* the new user Turn is appended, and the new
user message is additionally sent as the live turn, so it appears inside the
history window as well. -/
theorem C1_ask_history_after_append : ∀ (svc : GatewayFn) (lp : Catalog)
    (selected_path : String) (t : List Turn) (prompt : String), prompt ≠ "" →
    ask_request lp selected_path t prompt
      = Turn.mk Role.system
          (system_prompt (build_path_context lp selected_path) selected_path "" false) ::
        (windowed (t ++ [Turn.mk Role.user prompt]) 4 ++ [Turn.mk Role.user prompt]) ∧
    Turn.mk Role.user prompt ∈ windowed (t ++ [Turn.mk Role.user prompt]) 4 ∧
    ask_handler svc lp selected_path t prompt
      = (t ++ [Turn.mk Role.user prompt]) ++
        [Turn.mk Role.assistant (gateway_text (svc (ask_request lp selected_path t prompt)))] := by
  intro svc lp sp t prompt hp
  refine ⟨rfl, mem_windowed_append_last t (Turn.mk Role.user prompt) 4 (by decide), ?_⟩
  rw [ask_handler, if_neg hp]
  rfl

/-- C1 amended, witness: at the concrete input of the counterexample the new
user Turn is inside the history window. -/
theorem C1_ask_history_witness :
    Turn.mk Role.user "hi" ∈ windowed ([] ++ [Turn.mk Role.user "hi"]) 4 :=
  (C1_ask_history_after_append (fun _ => Except.ok "x") sampleCatalog "Select a path..."
    [] "hi" (by decide)).2.1

/-- C3 counterexample: when the backing source is missing, load_learning_paths
propagates the error and produces no catalog at all — there is no fallback. -/
theorem C3_counterexample :
    load_learning_paths none = Except.error LoadError.fileNotFound ∧
    (load_learning_paths none).isOk = false :=
  ⟨rfl, rfl⟩

/-- C3 amended: a missing source fails with a file-not-found error and a
malformed source with a decode error; neither is recovered into a fallback
catalog (the raised error aborts startup), and only a well-formed source
yields a catalog. -/
theorem C3_load_no_fallback :
    load_learning_paths none = Except.error LoadError.fileNotFound ∧
    load_learning_paths (some none) = Except.error LoadError.jsonDecodeError ∧
    ∀ cat : Catalog, load_learning_paths (some (some cat)) = Except.ok cat :=
  ⟨rfl, rfl, fun _ => rfl⟩

/-- C4: on a transcript whose last Turn has role "user", or whose last Turn is
an assistant Turn that is not incomplete, resolveContinuation fails with
PreconditionViolation (returning no updated transcript, so the caller's
transcript is untouched). -/
theorem C4_continuation_precondition : ∀ (svc : GatewayFn) (lp : Catalog)
    (selected_path : String) (t : List Turn),
    ((∃ c, t.getLast? = some (Turn.mk Role.user c)) ∨
     (∃ c, t.getLast? = some (Turn.mk Role.assistant c) ∧ is_incomplete c = false)) →
    resolveContinuation svc lp selected_path t
      = Except.error ContinuationError.preconditionViolation := by
  intro svc lp sp t h
  unfold resolveContinuation
  rcases h with ⟨c, hc⟩ | ⟨c, hc, hinc⟩
  · rw [hc]; simp
  · rw [hc]; simp [hinc]

/-- C4 witness: a transcript ending in a user Turn is rejected. -/
theorem C4_continuation_precondition_witness :
    resolveContinuation (fun _ => Except.ok "x") sampleCatalog "Select a path..."
        [Turn.mk Role.user "hello"]
      = Except.error ContinuationError.preconditionViolation :=
  C4_continuation_precondition (fun _ => Except.ok "x") sampleCatalog "Select a path..."
    [Turn.mk Role.user "hello"] (Or.inl ⟨"hello", rfl⟩)

/-- C5: whenever the underlying service fails on the request get_ai_response
built, get_ai_response returns the sentinel string
"Error: Unable to get AI response. " with the failure detail appended — the
caller always receives a displayable string, never an exception. -/
theorem C5_gateway_error_sentinel : ∀ (svc : GatewayFn)
    (message context selected_path selected_topic : String)
    (chat_history : List Turn) (is_continuation : Bool) (e : String),
    svc (build_messages message context selected_path selected_topic chat_history is_continuation)
      = Except.error e →
    get_ai_response svc message context selected_path selected_topic chat_history is_continuation
      = "Error: Unable to get AI response. " ++ e := by
  intro svc m c sp tp h ic e he
  unfold get_ai_response
  rw [he]
  rfl

/-- C5 witness: a service failing with detail "HTTPError 401" yields the
sentinel string. -/
theorem C5_gateway_error_sentinel_witness :
    get_ai_response (fun _ => Except.error "HTTPError 401") "msg" "" "" "" [] false
      = "Error: Unable to get AI response. HTTPError 401" :=
  C5_gateway_error_sentinel (fun _ => Except.error "HTTPError 401") "msg" "" "" "" [] false
    "HTTPError 401" rfl

/-- C6: on an eligible transcript whose last Turn is an incomplete assistant
Turn with content `c`, resolveContinuation sends the continuation request
"Please complete this incomplete sentence and continue: \"" ++ c ++ "\"" and
returns the input transcript unchanged with exactly one new assistant Turn
appended. -/
theorem C6_continuation_exact_append : ∀ (svc : GatewayFn) (lp : Catalog)
    (selected_path : String) (t : List Turn) (c : String),
    t.getLast? = some (Turn.mk Role.assistant c) → is_incomplete c = true →
    resolveContinuation svc lp selected_path t
      = Except.ok (t ++ [Turn.mk Role.assistant
          (get_ai_response svc
            ("Please complete this incomplete sentence and continue: \"" ++ c ++ "\"")
            (build_path_context lp selected_path) selected_path "" t true)]) := by
  intro svc lp sp t c hlast hinc
  unfold resolveContinuation
  rw [hlast]
  simp [hinc]

/-- C6 witness: the spec's section 8 scenario — the incomplete reply
"Probability is the..." is continued; the original Turns stay in place and the
continuation is appended as a third Turn. -/
theorem C6_continuation_exact_append_witness :
    resolveContinuation (fun _ => Except.ok "done.") sampleCatalog "Select a path..."
        [Turn.mk Role.user "q", Turn.mk Role.assistant "Probability is the..."]
      = Except.ok [Turn.mk Role.user "q", Turn.mk Role.assistant "Probability is the...",
          Turn.mk Role.assistant "done."] := by
  rw [C6_continuation_exact_append (fun _ => Except.ok "done.") sampleCatalog "Select a path..."
    [Turn.mk Role.user "q", Turn.mk Role.assistant "Probability is the..."]
    "Probability is the..." rfl (by decide)]
  rfl

/-- C8: a completed ask turn-cycle (non-empty prompt) extends the transcript by
exactly a user Turn and an assistant Turn, never touching prior Turns, and the
assistant Turn's content on a gateway failure is the sentinel error string, so
no user Turn is left dangling. -/
theorem C8_ask_two_turn_extension : ∀ (svc : GatewayFn) (lp : Catalog)
    (selected_path : String) (t : List Turn) (prompt : String), prompt ≠ "" →
    ask_handler svc lp selected_path t prompt
      = t ++ [Turn.mk Role.user prompt,
          Turn.mk Role.assistant (gateway_text (svc (ask_request lp selected_path t prompt)))] ∧
    ∀ e : String, gateway_text (Except.error e) = "Error: Unable to get AI response. " ++ e := by
  intro svc lp sp t prompt hp
  constructor
  · rw [ask_handler, if_neg hp, List.append_assoc]
    rfl
  · intro e; rfl

/-- C8 witness: on a failing gateway the cycle still appends both Turns, the
assistant one carrying the sentinel. -/
theorem C8_ask_two_turn_extension_witness :
    ask_handler (fun _ => Except.error "boom") sampleCatalog "Select a path..." [] "q"
      = [Turn.mk Role.user "q",
         Turn.mk Role.assistant "Error: Unable to get AI response. boom"] := by
  rw [(C8_ask_two_turn_extension (fun _ => Except.error "boom") sampleCatalog "Select a path..."
    [] "q" (by decide)).1]
  rfl

/-- C9 counterexample: nothing guards against an empty successful gateway
reply — an ask cycle with a service answering "" appends an assistant Turn
with empty content, so the Transcript does contain an empty-content Turn. -/
theorem C9_counterexample :
    ask_handler (fun _ => Except.ok "") sampleCatalog "Select a path..." [] "hi"
      = [Turn.mk Role.user "hi", Turn.mk Role.assistant ""] ∧
    (ask_handler (fun _ => Except.ok "") sampleCatalog "Select a path..." [] "hi").any
        (fun turn => turn.content == "") = true :=
  ⟨rfl, rfl⟩

/-- C9 amended: provided the gateway never returns an empty success string,
every user-facing action (ask, auto-explain, learn-more, the two quizzes,
continue, clear) preserves the invariant that no Turn has empty content: an
empty chat input mutates nothing, every generated user question is non-empty,
and an appended assistant Turn carries either the non-empty reply or the
non-empty error sentinel. -/
theorem C9_no_empty_content_invariant : ∀ (svc : GatewayFn) (lp : Catalog)
    (selected_path selected_topic previous_topic : String) (t : List Turn) (a : Action),
    (∀ turn ∈ t, turn.content ≠ "") →
    (∀ req c, svc req = Except.ok c → c ≠ "") →
    ∀ turn ∈ step svc lp selected_path selected_topic previous_topic t a,
      turn.content ≠ "" := by
  intro svc lp sp tp prev t a ht hsvc
  cases a with
  | ask prompt =>
    intro turn hmem
    rw [step, ask_handler_eq] at hmem
    by_cases hp : prompt = ""
    · rw [if_pos hp] at hmem; exact ht turn hmem
    · rw [if_neg hp] at hmem
      exact action_cycle_nonempty svc sp "" t prompt (build_path_context lp sp) ht hp hsvc
        turn hmem
  | autoExplain =>
    intro turn hmem
    rw [step] at hmem
    split at hmem
    · have hq : ("Please briefly explain " ++ tp ++ " in the context of " ++ sp ++ ".") ≠ "" :=
        str_append_ne_empty _ _ (str_append_ne_empty _ _
          (str_append_ne_empty _ _ (str_append_ne_empty _ _ (by decide))))
      exact action_cycle_nonempty svc sp tp t _ _ ht hq hsvc turn hmem
    · exact ht turn hmem
  | learnMore =>
    intro turn hmem
    rw [step] at hmem
    split at hmem
    · have hq : ("Can you teach me more advanced concepts about " ++ tp ++
          "? Give me deeper insights and practical applications.") ≠ "" :=
        str_append_ne_empty _ _ (str_append_ne_empty _ _ (by decide))
      exact action_cycle_nonempty svc sp tp t _ _ ht hq hsvc turn hmem
    · exact ht turn hmem
  | quizMC =>
    intro turn hmem
    rw [step] at hmem
    split at hmem
    · have hq : ("Give me a multiple choice quiz question about " ++ tp ++
          " in the context of " ++ sp ++
          ". Provide one question with 4 options (A, B, C, D) and indicate the correct answer.") ≠ "" :=
        str_append_ne_empty _ _ (str_append_ne_empty _ _
          (str_append_ne_empty _ _ (str_append_ne_empty _ _ (by decide))))
      exact action_cycle_nonempty svc sp tp t _ _ ht hq hsvc turn hmem
    · exact ht turn hmem
  | quizSA =>
    intro turn hmem
    rw [step] at hmem
    split at hmem
    · have hq : ("Give me a short answer quiz question about " ++ tp ++
          " in the context of " ++ sp ++
          ". Ask one thought-provoking question that requires a brief explanation.") ≠ "" :=
        str_append_ne_empty _ _ (str_append_ne_empty _ _
          (str_append_ne_empty _ _ (str_append_ne_empty _ _ (by decide))))
      exact action_cycle_nonempty svc sp tp t _ _ ht hq hsvc turn hmem
    · exact ht turn hmem
  | continueLast =>
    intro turn hmem
    cases hres : resolveContinuation svc lp sp t with
    | error e => rw [step, hres] at hmem; exact ht turn hmem
    | ok t2 =>
      rw [step, hres] at hmem
      obtain ⟨q, hq2⟩ := resolveContinuation_ok hres
      rw [hq2] at hmem
      rcases List.mem_append.mp hmem with h0 | h1
      · exact ht turn h0
      · have he : turn = Turn.mk Role.assistant
            (get_ai_response svc q (build_path_context lp sp) sp "" t true) := by
          simpa using h1
        rw [he]
        exact gateway_text_ne_empty svc hsvc _
  | clearChat =>
    intro turn hmem
    rw [step] at hmem
    simp at hmem

/-- C9 amended, witness: a concrete ask cycle under a never-empty gateway
yields only non-empty contents. -/
theorem C9_no_empty_content_witness :
    (step (fun _ => Except.ok "ok.") sampleCatalog "Select a path..." "" "" []
        (Action.ask "hi")).all (fun turn => !(turn.content == "")) = true := by
  rw [List.all_eq_true]
  intro turn hmem
  have h := C9_no_empty_content_invariant (fun _ => Except.ok "ok.") sampleCatalog
    "Select a path..." "" "" [] (Action.ask "hi") (by simp)
    (fun req c hc => by injection hc with h2; rw [← h2]; decide) turn hmem
  simpa using h

/-- C10: the prompt builder treats the placeholder strings "Select a path..."
and "Select a topic..." (and the empty selected topic of continuation calls)
as unset: the context annotation spliced into the system prompt is exactly the
join of its lines, and under a placeholder path it contains no
"User has selected learning path:" line, under a placeholder or empty topic no
"User is focusing on topic:" line. -/
theorem C10_placeholder_selections_unset : ∀ (context selected_path selected_topic : String),
    build_context_info context selected_path selected_topic
      = String.join (context_lines context selected_path selected_topic) ∧
    (selected_path = "Select a path..." →
      ∀ s, ("User has selected learning path: " ++ s)
        ∉ context_lines context selected_path selected_topic) ∧
    ((selected_topic = "Select a topic..." ∨ selected_topic = "") →
      ∀ s, ("User is focusing on topic: " ++ s)
        ∉ context_lines context selected_path selected_topic) := by
  intro c sp tp
  refine ⟨build_context_info_eq_join c sp tp, ?_, ?_⟩
  · intro hsp s hmem
    rcases mem_context_lines hmem with h | ⟨⟨_, hne⟩, _⟩ | ⟨_, h⟩
    · have hd := string_append_ne "User has selected learning path: "
        "Current learning context: " 1 (by decide) (by decide) (by decide) s (c ++ "\n")
      rw [String.append_assoc] at h
      exact hd h
    · exact hne hsp
    · have hd := string_append_ne "User has selected learning path: "
        "User is focusing on topic: " 6 (by decide) (by decide) (by decide) s (tp ++ "\n")
      rw [String.append_assoc] at h
      exact hd h
  · intro htp s hmem
    rcases mem_context_lines hmem with h | ⟨_, h⟩ | ⟨⟨htp1, htp2⟩, _⟩
    · have hd := string_append_ne "User is focusing on topic: "
        "Current learning context: " 1 (by decide) (by decide) (by decide) s (c ++ "\n")
      rw [String.append_assoc] at h
      exact hd h
    · have hd := string_append_ne "User is focusing on topic: "
        "User has selected learning path: " 6 (by decide) (by decide) (by decide) s (sp ++ "\n")
      rw [String.append_assoc] at h
      exact hd h
    · rcases htp with htp | htp
      · exact htp2 htp
      · exact htp1 htp

end QuantCoach
